import Mathlib

/-!
# Verification of the TechGear Electronics support-chatbot workflow core

Shallow embedding of the query-routing workflow of `src/rag_agent.py`
(classifier node, router, RAG responder node, escalation node, `process_query`)
and of the RAG chain of `src/rag_chain.py` (retriever caching, document
formatting, chain invocation).

External model calls (the classification LLM and the generation LLM) are
represented as function parameters: a pure run is modelled with
`String → String` (the composed prompt → model → string-parser pipeline seen
as query ↦ raw output), and a fallible run with `String → Except ε String`
where `ε` is an opaque error type (a transport/model failure carries no
result record).
-/

namespace TechGear

/-- Embedding of Python `str.strip()` (used as `result.strip()` in
`classifier_node`): drop leading and trailing whitespace characters. -/
def strip (s : String) : String :=
  ⟨((s.data.dropWhile Char.isWhitespace).reverse.dropWhile Char.isWhitespace).reverse⟩

/-- Embedding of Python `str.upper()` (used as `result.upper()` in
`classifier_node`): uppercase every character. -/
def upper (s : String) : String :=
  ⟨s.data.map Char.toUpper⟩

/-- `class QueryCategory(str, Enum)` of `src/rag_agent.py`: the closed set of
query categories. -/
inductive QueryCategory where
  | PRODUCTS
  | RETURNS
  | GENERAL
  | ESCALATE
deriving DecidableEq, Repr

/-- The `.value` of each `QueryCategory` member (the enum is a `str` enum). -/
def QueryCategory.value : QueryCategory → String
  | .PRODUCTS => "PRODUCTS"
  | .RETURNS => "RETURNS"
  | .GENERAL => "GENERAL"
  | .ESCALATE => "ESCALATE"

/-- `valid_categories = {cat.value for cat in QueryCategory}` built in
`classifier_node`; a list stands in for the Python set (only membership is
used). -/
def valid_categories : List String :=
  [QueryCategory.PRODUCTS.value, QueryCategory.RETURNS.value,
   QueryCategory.GENERAL.value, QueryCategory.ESCALATE.value]

/-- `AgentState` TypedDict of `src/rag_agent.py`. `input` is present in every
state the workflow ever builds (`process_query` always sets it); the other
three keys are `Option`s so that a dict missing the key (read through
`state.get(key, default)`) is representable, `none` meaning the key is
absent. -/
structure AgentState where
  input : String
  category : Option String
  response : Option String
  needs_escalation : Option Bool
deriving DecidableEq, Repr

/-- `ESCALATION_MESSAGE` constant of `src/rag_agent.py` (lines 53-62),
byte for byte. -/
def ESCALATION_MESSAGE : String :=
  "I understand your concern, and I want to make sure you receive the best possible assistance.\n\nI\x27m connecting you with one of our customer support specialists who can help you further. A team member will be with you shortly.\n\n**What you can expect:**\n- A support specialist will contact you within 24 hours\n- For urgent matters, please call our toll-free number: 1800-102-TECH (1800-102-8324)\n- You can also email us at support@techgear.com\n\nThank you for your patience. Is there anything else I can help you with in the meantime?"

/-- `classifier_node` of `src/rag_agent.py`: normalize the raw model output
(`.strip().upper()`), fall back to `GENERAL` when it is not a valid category,
and merge `category` and `needs_escalation` into the state (`{**state, ...}`).
`classify` abstracts `(prompt | llm | StrOutputParser()).invoke` as
query ↦ raw output. -/
def classifier_node (classify : String → String) (state : AgentState) : AgentState :=
  let query := state.input
  let result := upper (strip (classify query))
  let result := if valid_categories.contains result then result
                else QueryCategory.GENERAL.value
  { state with
      category := some result,
      needs_escalation := some (result == QueryCategory.ESCALATE.value) }

/-- `rag_responder_node` of `src/rag_agent.py`: generate a response for the
original query through the RAG chain (`generate` abstracts
`get_rag_chain().invoke`) and merge it into the state. -/
def rag_responder_node (generate : String → String) (state : AgentState) : AgentState :=
  let query := state.input
  let response := generate query
  { state with response := some response }

/-- `escalation_node` of `src/rag_agent.py`: merge the fixed escalation
message and `needs_escalation = True` into the state. No model call. -/
def escalation_node (state : AgentState) : AgentState :=
  { state with
      response := some ESCALATION_MESSAGE,
      needs_escalation := some true }

/-- `route_after_classification` of `src/rag_agent.py`: read
`state.get("category", "")` and pick the edge label. -/
def route_after_classification (state : AgentState) : String :=
  let category := state.category.getD ""
  if category == QueryCategory.ESCALATE.value then "escalation"
  else "rag_responder"

/-- Node names of the graph built by `build_workflow`. -/
inductive WorkflowNode where
  | classifier
  | rag_responder
  | escalation
deriving DecidableEq, Repr

/-- One invocation of the graph compiled by `build_workflow`: entry point
`classifier`, then the conditional edge keyed by
`route_after_classification` (whose only return values are `"escalation"`
and `"rag_responder"`, mapped to the nodes of the same names), then `END`.
Also returns the list of nodes executed, in order. -/
def workflow_invoke (classify generate : String → String) (s0 : AgentState) :
    AgentState × List WorkflowNode :=
  let s1 := classifier_node classify s0
  if route_after_classification s1 == "escalation" then
    (escalation_node s1, [WorkflowNode.classifier, WorkflowNode.escalation])
  else
    (rag_responder_node generate s1, [WorkflowNode.classifier, WorkflowNode.rag_responder])

/-- The `initial_state` dict built inside `process_query`. -/
def initial_state (query : String) : AgentState :=
  { input := query, category := some "", response := some "",
    needs_escalation := some false }

/-- `process_query` of `src/rag_agent.py`: run the workflow on the initial
state and return the final state record. -/
def process_query (classify generate : String → String) (query : String) : AgentState :=
  (workflow_invoke classify generate (initial_state query)).1

/-- `classifier_node` when the model call may fail: the Python code wraps the
call in no try/except, so a raised error aborts the node. Identical to
`classifier_node` once the call returns. -/
def classifier_node_e {ε : Type} (classify : String → Except ε String)
    (state : AgentState) : Except ε AgentState := do
  let query := state.input
  let raw ← classify query
  let result := upper (strip raw)
  let result := if valid_categories.contains result then result
                else QueryCategory.GENERAL.value
  pure { state with
           category := some result,
           needs_escalation := some (result == QueryCategory.ESCALATE.value) }

/-- `rag_responder_node` when the RAG generation call may fail (no
try/except around `rag.invoke(query)`). -/
def rag_responder_node_e {ε : Type} (generate : String → Except ε String)
    (state : AgentState) : Except ε AgentState := do
  let query := state.input
  let response ← generate query
  pure { state with response := some response }

/-- `workflow_invoke` when the model calls may fail: an error raised in a
node aborts the invocation (LangGraph propagates node exceptions), so the
error of the first failing call is the result. `escalation_node` makes no
call and cannot fail. -/
def workflow_invoke_e {ε : Type} (classify generate : String → Except ε String)
    (s0 : AgentState) : Except ε AgentState := do
  let s1 ← classifier_node_e classify s0
  if route_after_classification s1 == "escalation" then
    pure (escalation_node s1)
  else
    rag_responder_node_e generate s1

/-- `process_query` when the model calls may fail: either the final state
record, or the propagated error of the failing call (no partial record). -/
def process_query_e {ε : Type} (classify generate : String → Except ε String)
    (query : String) : Except ε AgentState :=
  workflow_invoke_e classify generate (initial_state query)

/-! ## RAG chain (`src/rag_chain.py`) -/

/-- Modelled from the spec: the external Chroma vector store behind
`RAGChain.get_vectorstore` is not part of this repository; §6 gives its
contract `similaritySearch(query, k) -> ordered sequence of (text, score)`.
An index is a finite list of stored passages together with a similarity
scoring function of the query. -/
structure VectorIndex where
  passages : List String
  score : String → String → Int

/-- Modelled from the spec: `similaritySearch` returns the stored passages
paired with their scores for the query, ordered by descending similarity,
truncated to the top `k`. -/
def similaritySearch (idx : VectorIndex) (query : String) (k : Nat) :
    List (String × Int) :=
  ((idx.passages.map (fun p => (p, idx.score query p))).insertionSort
      (fun a b => b.2 ≤ a.2)).take k

/-- The mutable retrieval-relevant state of a `RAGChain` instance:
its vector index and the cached retriever (`self._retriever`), recorded as
the `k` the retriever was created with (`none` = not yet created). -/
structure RAGChain where
  index : VectorIndex
  retriever_k : Option Nat

/-- `RAGChain.get_retriever` of `src/rag_chain.py`: create the retriever
with `search_kwargs={"k": k}` only if `self._retriever is None`, else return
the cached one (whose `k` is whatever it was created with). Returns the
updated instance state and the `k` the returned retriever searches with. -/
def get_retriever (chain : RAGChain) (k : Nat := 4) : RAGChain × Nat :=
  match chain.retriever_k with
  | none => ({ chain with retriever_k := some k }, k)
  | some k0 => (chain, k0)

/-- `RAGChain.retrieve_context` of `src/rag_chain.py`: invoke the retriever
from `get_retriever(k=k)` on the query. -/
def retrieve_context (chain : RAGChain) (query : String) (k : Nat := 4) :
    RAGChain × List (String × Int) :=
  let r := get_retriever chain k
  (r.1, similaritySearch r.1.index query r.2)

/-- `RAGChain._format_docs` of `src/rag_chain.py`:
`"\n\n---\n\n".join(doc.page_content for doc in docs)`. -/
def format_docs (docs : List (String × Int)) : String :=
  String.intercalate "\n\n---\n\n" (docs.map Prod.fst)

/-- The `SYSTEM_PROMPT` template of `src/rag_chain.py` with `{context}` and
`{question}` substituted (what `ChatPromptTemplate.from_template` produces
when the chain feeds it the formatted context and the query). -/
def SYSTEM_PROMPT_format (context question : String) : String :=
  "You are a helpful and friendly customer support agent for TechGear Electronics.\nYour role is to assist customers with their product inquiries, technical support questions, and general information.\n\nGuidelines:\n- Be polite, professional, and helpful at all times\n- Provide accurate information based on the context provided\n- If the information is not in the context, say you don\x27t have that specific information and suggest contacting support\n- Include relevant product details like prices, features, and SKUs when available\n- For troubleshooting, provide clear step-by-step instructions\n- Keep responses concise but comprehensive\n\nContext from knowledge base:\n"
    ++ context ++ "\n\nCustomer Query: " ++ question ++ "\n\nResponse:"

/-- `RAGChain.invoke` via `get_chain` of `src/rag_chain.py`: the chain fills
`context` with the formatted documents from the retriever of
`get_retriever()` (default `k = 4`), fills `question` with the query, and
passes the formatted prompt to the generation model (`generate` abstracts
`llm | StrOutputParser()`). Returns the updated instance state and the
model output. -/
def rag_invoke (generate : String → String) (chain : RAGChain) (query : String) :
    RAGChain × String :=
  let r := get_retriever chain 4
  let docs := similaritySearch r.1.index query r.2
  let context := format_docs docs
  (r.1, generate (SYSTEM_PROMPT_format context query))

/-! ## Helper lemmas -/

lemma workflow_invoke_eq (classify generate : String → String) (s0 : AgentState) :
    workflow_invoke classify generate s0 =
      (let result := if valid_categories.contains (upper (strip (classify s0.input)))
                    then upper (strip (classify s0.input)) else "GENERAL"
      if result = "ESCALATE" then
        ({ s0 with
            category := some result
            response := some ESCALATION_MESSAGE
            needs_escalation := some true },
         [WorkflowNode.classifier, WorkflowNode.escalation])
      else
        ({ s0 with
            category := some result
            response := some (generate s0.input)
            needs_escalation := some false },
         [WorkflowNode.classifier, WorkflowNode.rag_responder])) := by
  simp only [workflow_invoke, classifier_node, route_after_classification, escalation_node,
    rag_responder_node, QueryCategory.value]
  split <;> rename_i h
  case isTrue => simp [h]; split <;> rename_i h2 <;> simp [h2]
  case isFalse => simp [h]

lemma fallback_ne_escalate (r : String) (h : r ≠ "ESCALATE") :
    (if r ∈ valid_categories then r else "GENERAL") ≠ "ESCALATE" := by
  split <;> simp [h]

/-- The fallible run agrees with the pure run when every model call
returns. -/
lemma process_query_e_coincides {ε : Type} (classify generate : String → String) (q : String) :
    process_query_e (fun s => (Except.ok (classify s) : Except ε String))
        (fun s => Except.ok (generate s)) q =
      Except.ok (process_query classify generate q) := by
  have h1 : classifier_node_e (fun s => (Except.ok (classify s) : Except ε String))
      (initial_state q) = Except.ok (classifier_node classify (initial_state q)) := rfl
  have h2 : ∀ st : AgentState, rag_responder_node_e
      (fun s => (Except.ok (generate s) : Except ε String)) st =
        Except.ok (rag_responder_node generate st) := fun _ => rfl
  simp only [process_query_e, process_query, workflow_invoke_e, workflow_invoke, h1, h2]
  by_cases hc : route_after_classification (classifier_node classify (initial_state q)) =
      "escalation" <;> simp [hc, Bind.bind, Except.bind, Pure.pure, Except.pure]

/-! ## Claims -/

/-- C1: for every query and every classifier model output, the result record
of `process_query` has `needs_escalation = true` exactly when its `category`
is `"ESCALATE"`. -/
theorem needs_escalation_iff_category_escalate (classify generate : String → String)
    (q : String) :
    (process_query classify generate q).needs_escalation = some true ↔
      (process_query classify generate q).category = some "ESCALATE" := by
  simp only [process_query, workflow_invoke_eq, initial_state]
  split <;> split <;> simp_all

/-- C2: after normalization (strip whitespace, uppercase) of the raw
classifier output, a valid label becomes the result category exactly, and
anything else falls back to `"GENERAL"`. -/
theorem category_normalization_and_fallback (classify generate : String → String)
    (q : String) :
    (valid_categories.contains (upper (strip (classify q))) = true →
      (process_query classify generate q).category = some (upper (strip (classify q)))) ∧
    (valid_categories.contains (upper (strip (classify q))) = false →
      (process_query classify generate q).category = some "GENERAL") := by
  simp only [process_query, workflow_invoke_eq, initial_state]
  constructor <;> intro hv <;> simp only [hv] <;> split <;> split <;> simp_all

/-- C2 witness: a padded lowercase valid label is normalized and kept; an
unrecognized label falls back to `"GENERAL"`. -/
theorem category_normalization_and_fallback_witness :
    (process_query (fun _ => " products ") (fun s => s) "x").category = some "PRODUCTS" ∧
    (process_query (fun _ => "UNRECOGNIZED") (fun s => s) "x").category = some "GENERAL" :=
  ⟨(category_normalization_and_fallback (fun _ => " products ") (fun s => s) "x").1
      (by decide),
   (category_normalization_and_fallback (fun _ => "UNRECOGNIZED") (fun s => s) "x").2
      (by decide)⟩

/-- C3: every invocation of the workflow executes exactly one of the two
terminal nodes (RAG responder, escalation), whatever the classifier
produced. -/
theorem exactly_one_terminal_node (classify generate : String → String) (q : String) :
    ((workflow_invoke classify generate (initial_state q)).2.filter
        (fun n => n == WorkflowNode.rag_responder || n == WorkflowNode.escalation)).length
      = 1 := by
  simp only [workflow_invoke_eq, initial_state]
  split <;> split <;> rfl

/-- C4: when the classified category is `"ESCALATE"`, the result is returned
without any generation-model call (the outcome is the same for any
generation function, including an always-failing one, so the path never
fails), and the `response` is byte-identical to `ESCALATION_MESSAGE`. -/
theorem escalation_response_fixed {ε : Type} (classify generate generate2 : String → Except ε String)
    (q raw : String) (hc : classify q = Except.ok raw)
    (hr : upper (strip raw) = "ESCALATE") :
    process_query_e classify generate q =
      Except.ok { input := q, category := some "ESCALATE",
                  response := some ESCALATION_MESSAGE, needs_escalation := some true } ∧
    process_query_e classify generate2 q = process_query_e classify generate q := by
  have key : ∀ g : String → Except ε String,
      process_query_e classify g q =
        Except.ok { input := q, category := some "ESCALATE",
                    response := some ESCALATION_MESSAGE, needs_escalation := some true } := by
    intro g
    simp [process_query_e, workflow_invoke_e, classifier_node_e, initial_state, hc, hr,
      route_after_classification, escalation_node, Bind.bind, Except.bind, Pure.pure,
      Except.pure, valid_categories, QueryCategory.value]
  exact ⟨key generate, (key generate2).trans (key generate).symm⟩

/-- C4 witness: with a classifier output normalizing to `ESCALATE` and a
generation call that would fail, the workflow still succeeds with the fixed
escalation message, and swapping the generation function changes nothing. -/
theorem escalation_response_fixed_witness :
    process_query_e (fun _ => (Except.ok " escalate " : Except String String))
        (fun _ => Except.error "generation failure") "hi" =
      Except.ok { input := "hi", category := some "ESCALATE",
                  response := some ESCALATION_MESSAGE, needs_escalation := some true } ∧
    process_query_e (fun _ => (Except.ok " escalate " : Except String String))
        (fun _ => Except.ok "ignored") "hi" =
      process_query_e (fun _ => (Except.ok " escalate " : Except String String))
        (fun _ => Except.error "generation failure") "hi" :=
  escalation_response_fixed (fun _ => Except.ok " escalate ")
    (fun _ => Except.error "generation failure") (fun _ => Except.ok "ignored")
    "hi" " escalate " rfl (by decide)

/-- C5: the routing predicate is a pure function of the `category` field
alone: two states with equal `category` route identically, whatever their
other fields (in particular the raw query text). -/
theorem route_depends_only_on_category (s1 s2 : AgentState)
    (h : s1.category = s2.category) :
    route_after_classification s1 = route_after_classification s2 := by
  simp [route_after_classification, h]

/-- C5 witness: two states with the same category but different input,
response and escalation fields route to the same branch. -/
theorem route_depends_only_on_category_witness :
    route_after_classification
        { input := "query A", category := some "GENERAL", response := some "x",
          needs_escalation := some true } =
      route_after_classification
        { input := "query B", category := some "GENERAL", response := none,
          needs_escalation := some false } :=
  route_depends_only_on_category _ _ rfl

/-- C6: evaluation at the failing input. On a chain whose retriever was
created by a first `retrieve_context(query, k=4)` call over a 3-passage
index, a second `retrieve_context(query, k=2)` call reuses the cached
retriever (`get_retriever` ignores its `k` argument once `_retriever` is
set) and returns 3 passages, more than the requested `k = 2`. -/
theorem retrieve_context_cached_k_eval :
    2 < ((retrieve_context
        (retrieve_context ⟨⟨["a", "b", "c"], fun _ _ => 0⟩, none⟩ "q" 4).1
        "q" 2).2).length := by decide

/-- C7: when retrieval returns zero passages, the context block is the join
over the empty sequence (the empty string) and generation proceeds
uniformly, returning the model output for the prompt with an empty context
block — no branch on emptiness and no failure. -/
theorem empty_retrieval_no_error (generate : String → String) (chain : RAGChain)
    (q : String) (h : chain.index.passages = []) :
    format_docs [] = "" ∧
    (rag_invoke generate chain q).2 = generate (SYSTEM_PROMPT_format "" q) := by
  constructor
  · rfl
  · have hidx : (get_retriever chain 4).1.index = chain.index := by
      unfold get_retriever
      cases chain.retriever_k <;> simp
    simp [rag_invoke, similaritySearch, hidx, h, format_docs]
    rfl

/-- C7 witness: over an empty index, the chain output is the generation
model applied to the prompt with an empty context block. -/
theorem empty_retrieval_no_error_witness :
    format_docs [] = "" ∧
    (rag_invoke (fun s => s) ⟨⟨[], fun _ _ => 0⟩, none⟩ "hi").2 =
      SYSTEM_PROMPT_format "" "hi" :=
  empty_retrieval_no_error (fun s => s) ⟨⟨[], fun _ _ => 0⟩, none⟩ "hi" rfl

/-- C8: a failing classification call makes `process_query` fail with that
very error, and so does a failing generation call on the non-escalation
path; in both cases the error is passed through untranslated and no partial
result record exists (the result is `Except.error`, which carries none). -/
theorem model_failure_propagates {ε : Type} (classify generate : String → Except ε String)
    (q raw : String) (e e2 : ε) :
    (classify q = Except.error e → process_query_e classify generate q = Except.error e) ∧
    (classify q = Except.ok raw → upper (strip raw) ≠ "ESCALATE" →
      generate q = Except.error e2 →
      process_query_e classify generate q = Except.error e2) := by
  constructor
  · intro hc
    simp [process_query_e, workflow_invoke_e, classifier_node_e, initial_state, hc,
      Bind.bind, Except.bind]
  · intro hc hne hg
    have hroute := fallback_ne_escalate (upper (strip raw)) hne
    simp [process_query_e, workflow_invoke_e, classifier_node_e, rag_responder_node_e,
      initial_state, hc, hg, route_after_classification, QueryCategory.value, hroute,
      Bind.bind, Except.bind, Pure.pure, Except.pure]

/-- C8 witness: a classifier transport error and a generation transport
error each propagate unchanged to the caller. -/
theorem model_failure_propagates_witness :
    process_query_e (fun _ => (Except.error "classifier transport failure" : Except String String))
        (fun _ => Except.ok "resp") "hi" = Except.error "classifier transport failure" ∧
    process_query_e (fun _ => (Except.ok "GENERAL" : Except String String))
        (fun _ => Except.error "generation transport failure") "hi" =
      Except.error "generation transport failure" :=
  ⟨(model_failure_propagates (fun _ => Except.error "classifier transport failure")
      (fun _ => Except.ok "resp") "hi" "" "classifier transport failure" "unused").1 rfl,
   (model_failure_propagates (fun _ => Except.ok "GENERAL")
      (fun _ => Except.error "generation transport failure") "hi" "GENERAL" "unused"
      "generation transport failure").2 rfl (by decide) rfl⟩

/-- C9: no node overwrites `input`: the classifier leaves `input` and
`response` untouched (it only fills `category` and `needs_escalation`), and
the final record of `process_query` carries the original query and differs
from the post-classifier state only in `response` (on the escalation branch
the node re-asserts `needs_escalation := true`, which is the value the
classifier already set there). -/
theorem nodes_preserve_input_frame (classify generate : String → String) (q : String) :
    (classifier_node classify (initial_state q)).input = q ∧
    (classifier_node classify (initial_state q)).response = (initial_state q).response ∧
    (process_query classify generate q).input = q ∧
    process_query classify generate q =
      { classifier_node classify (initial_state q) with
          response := (process_query classify generate q).response } := by
  refine ⟨rfl, rfl, ?_, ?_⟩
  · simp only [process_query, workflow_invoke_eq, initial_state]
    split <;> split <;> rfl
  · simp only [process_query, workflow_invoke_eq, initial_state, classifier_node,
      QueryCategory.value]
    split <;> split <;> simp_all

/-- C10: routing is total and defaults safely: on every state it returns one
of the two branch labels, a missing `category` key is read as the empty
string and routed to the RAG responder, and every category other than
exactly `"ESCALATE"` is routed to the RAG responder. -/
theorem route_total_default (s : AgentState) :
    (route_after_classification s = "rag_responder" ∨
      route_after_classification s = "escalation") ∧
    (s.category = none → route_after_classification s = "rag_responder") ∧
    (s.category.getD "" ≠ "ESCALATE" → route_after_classification s = "rag_responder") := by
  refine ⟨?_, ?_, ?_⟩
  · simp only [route_after_classification]
    split <;> simp
  · intro h
    simp [route_after_classification, h, QueryCategory.value]
  · intro h
    simp [route_after_classification, h, QueryCategory.value]

/-- C10 witness: a state with no `category` key routes to the RAG
responder. -/
theorem route_total_default_witness :
    route_after_classification
        { input := "q", category := none, response := none, needs_escalation := none } =
      "rag_responder" :=
  (route_total_default
      { input := "q", category := none, response := none, needs_escalation := none }).2.1 rfl

end TechGear
